import Mathlib

/-!
Verification of the `yagalog` logger package: a shallow embedding of the
Go source (package `logger`) and proofs of the specification's claims.

Modelling conventions:
* `LogLevel` is `Int`, matching Go's `type LogLevel int` (an unconstrained
  machine integer; the named constants are `0..4`).
* The operating system's file table is made explicit as `FileSys`: a set of
  open handles (with the path each refers to) and the sequence of records
  that actually landed on disk.  Closing an already-closed handle errors,
  as Go's `(*os.File).Close` does; writing through a closed handle fails
  and the failure is swallowed, as the source discards write errors.
* External inputs that the source obtains from the runtime are passed as
  explicit parameters: `sprintf` stands for `fmt.Sprintf`, `nowStr` for
  `time.Now().Format(l.timeFormat)`, `callerRes` for `runtime.Caller(2)`,
  and `openOk` decides whether `os.OpenFile` succeeds on a path.
* Console emission is modelled as the list of `(destination, line)` pairs
  produced by the call; `os.Exit(1)` in `Fatal` is modelled by an
  `exited` flag in the result.
-/

abbrev LogLevel := Int

def DEBUG : LogLevel := 0
def INFO : LogLevel := 1
def WARNING : LogLevel := 2
def ERROR : LogLevel := 3
def FATAL : LogLevel := 4

/-- A record written to the log file: either a plain text line (including
its terminating newline) or a structured (JSON) record given by its field
list together with the encoder's HTML-escaping setting. -/
inductive FileRecord where
  | plain (line : String)
  | json (fields : List (String × String)) (escapeHTML : Bool)
  deriving Repr, DecidableEq

/-- The explicit model of the OS file table: fresh-handle counter, the
currently open handles (handle id paired with the path it refers to), and
the sequence of records that reached disk, tagged by path. -/
structure FileSys where
  nextId : Nat
  opens : List (Nat × String)
  written : List (String × FileRecord)
  deriving Repr, DecidableEq

/-- `os.OpenFile(path, O_APPEND|O_CREATE|O_WRONLY, 0666)`: succeeds iff the
environment oracle `openOk` allows the path, allocating a fresh handle. -/
def FileSys.openFile (fs : FileSys) (openOk : String → Bool) (path : String) :
    Except String (FileSys × Nat) :=
  if openOk path then
    .ok ({ fs with nextId := fs.nextId + 1, opens := fs.opens ++ [(fs.nextId, path)] },
         fs.nextId)
  else
    .error ("open " ++ path ++ ": failed")

/-- `(*os.File).Close()`: removes the handle from the open table; closing a
handle that is not open returns the double-close error. -/
def FileSys.closeFile (fs : FileSys) (h : Nat) : FileSys × Option String :=
  if fs.opens.any (fun p => p.1 = h) then
    ({ fs with opens := fs.opens.filter (fun p => p.1 ≠ h) }, none)
  else
    (fs, some "file already closed")

/-- Whether handle `h` is currently open. -/
def FileSys.isOpen (fs : FileSys) (h : Nat) : Bool :=
  fs.opens.any (fun p => p.1 = h)

/-- The path an open handle refers to. -/
def FileSys.pathOf (fs : FileSys) (h : Nat) : Option String :=
  (fs.opens.find? (fun p => p.1 = h)).map (fun p => p.2)

/-- A write through handle `h`: appends the record to the handle's path if
the handle is open; a write through a closed handle fails, and the source
discards the error (`_, _ = fmt.Fprintln...` / `_ = enc.Encode(entry)`),
so nothing reaches disk. -/
def FileSys.writeRecord (fs : FileSys) (h : Nat) (r : FileRecord) : FileSys :=
  match fs.pathOf h with
  | some path => { fs with written := fs.written ++ [(path, r)] }
  | none => fs

/-- The logger's own state, after `type Logger struct`.  The five console
`log.Logger`s all wrap the single destination `out`, so `out` (an opaque
destination id) stands for them; the mutex only matters for concurrency,
which this sequential embedding does not model. -/
structure Logger where
  level : LogLevel
  logFile : Option Nat
  out : Nat
  filePath : String
  timeFormat : String
  withCaller : Bool
  jsonMode : Bool
  deriving Repr, DecidableEq

/-- The bracketed level tag computed by the `switch` in `Logger.log`
(`levelStr`); levels outside the five constants leave it empty. -/
def levelTag (level : LogLevel) : String :=
  if level = DEBUG then "[DEBUG] "
  else if level = INFO then "[INFO] "
  else if level = WARNING then "[WARNING] "
  else if level = ERROR then "[ERROR] "
  else if level = FATAL then "[FATAL] "
  else ""

/-- `levelStr[1 : len(levelStr)-2]`: strip the leading bracket and the
trailing bracket-plus-space. -/
def stripTag (s : String) : String :=
  (s.drop 1).dropRight 2

/-- Console emission of the `switch` in `Logger.log`: one `Println` on the
level's console logger (all of which write to `l.out`), nothing for a
level outside the five constants. -/
def consoleLines (out : Nat) (level : LogLevel) (msg : String) :
    List (Nat × String) :=
  if level = DEBUG ∨ level = INFO ∨ level = WARNING ∨ level = ERROR ∨ level = FATAL then
    [(out, levelTag level ++ msg)]
  else
    []

/-- The caller string resolved inside `Logger.log`: empty unless
`withCaller` is set and `runtime.Caller` succeeded, in which case it is
`basename(file):line`. -/
def resolveCaller (withCaller : Bool) (callerRes : Option (String × Nat)) : String :=
  if withCaller then
    match callerRes with
    | some (file, line) => file ++ ":" ++ toString line
    | none => ""
  else ""

/-- `func (l *Logger) log(level LogLevel, msg string)`.  Returns the file
system after the call and the console lines produced.  `nowStr` stands for
`time.Now().Format(l.timeFormat)` and `callerRes` for the outcome of
`runtime.Caller(2)`. -/
def Logger.log (l : Logger) (fs : FileSys) (level : LogLevel) (msg : String)
    (nowStr : String) (callerRes : Option (String × Nat)) :
    FileSys × List (Nat × String) :=
  if level < l.level then
    (fs, [])
  else
    let console := consoleLines l.out level msg
    match l.logFile with
    | none => (fs, console)
    | some h =>
      let levelStr := levelTag level
      let caller := resolveCaller l.withCaller callerRes
      if l.jsonMode then
        let fields := [("time", nowStr), ("level", stripTag levelStr), ("msg", msg)]
          ++ (if caller ≠ "" then [("caller", caller)] else [])
        (fs.writeRecord h (.json fields false), console)
      else
        let line := nowStr ++ " " ++ levelStr ++ msg
        let line := if caller ≠ "" then line ++ " (" ++ caller ++ ")" else line
        (fs.writeRecord h (.plain (line ++ "\n")), console)

/-- Result of a leveled method: the file system afterwards, the console
lines emitted, and whether `fmt.Sprintf` was invoked on the template. -/
structure MethodOut where
  fs : FileSys
  console : List (Nat × String)
  formatted : Bool
  deriving Repr, DecidableEq

/-- Result of `Fatal`, which additionally reports whether `os.Exit(1)` was
reached. -/
structure FatalOut where
  fs : FileSys
  console : List (Nat × String)
  formatted : Bool
  exited : Bool
  deriving Repr, DecidableEq

/-- `func (l *Logger) Debug(msg string, v ...interface{})`. -/
def Logger.Debug (l : Logger) (fs : FileSys)
    (sprintf : String → List String → String) (msg : String) (v : List String)
    (nowStr : String) (callerRes : Option (String × Nat)) : MethodOut :=
  if l.level > DEBUG then ⟨fs, [], false⟩
  else
    let fullMsg := if v.length > 0 then sprintf msg v else msg
    let r := l.log fs DEBUG fullMsg nowStr callerRes
    ⟨r.1, r.2, decide (v.length > 0)⟩

/-- `func (l *Logger) Info(msg string, v ...interface{})`. -/
def Logger.Info (l : Logger) (fs : FileSys)
    (sprintf : String → List String → String) (msg : String) (v : List String)
    (nowStr : String) (callerRes : Option (String × Nat)) : MethodOut :=
  if l.level > INFO then ⟨fs, [], false⟩
  else
    let fullMsg := if v.length > 0 then sprintf msg v else msg
    let r := l.log fs INFO fullMsg nowStr callerRes
    ⟨r.1, r.2, decide (v.length > 0)⟩

/-- `func (l *Logger) Warning(msg string, v ...interface{})`. -/
def Logger.Warning (l : Logger) (fs : FileSys)
    (sprintf : String → List String → String) (msg : String) (v : List String)
    (nowStr : String) (callerRes : Option (String × Nat)) : MethodOut :=
  if l.level > WARNING then ⟨fs, [], false⟩
  else
    let fullMsg := if v.length > 0 then sprintf msg v else msg
    let r := l.log fs WARNING fullMsg nowStr callerRes
    ⟨r.1, r.2, decide (v.length > 0)⟩

/-- `func (l *Logger) Error(msg string, v ...interface{})`. -/
def Logger.Error (l : Logger) (fs : FileSys)
    (sprintf : String → List String → String) (msg : String) (v : List String)
    (nowStr : String) (callerRes : Option (String × Nat)) : MethodOut :=
  if l.level > ERROR then ⟨fs, [], false⟩
  else
    let fullMsg := if v.length > 0 then sprintf msg v else msg
    let r := l.log fs ERROR fullMsg nowStr callerRes
    ⟨r.1, r.2, decide (v.length > 0)⟩

/-- `func (l *Logger) Fatal(msg string, v ...interface{})`: after the write
path, `os.Exit(1)` is reached (modelled by `exited := true`). -/
def Logger.Fatal (l : Logger) (fs : FileSys)
    (sprintf : String → List String → String) (msg : String) (v : List String)
    (nowStr : String) (callerRes : Option (String × Nat)) : FatalOut :=
  if l.level > FATAL then ⟨fs, [], false, false⟩
  else
    let fullMsg := if v.length > 0 then sprintf msg v else msg
    let r := l.log fs FATAL fullMsg nowStr callerRes
    ⟨r.1, r.2, decide (v.length > 0), true⟩

/-- `func (l *Logger) Close() error`: closes the handle if one is stored;
note that the field is not cleared. -/
def Logger.Close (l : Logger) (fs : FileSys) : FileSys × Option String :=
  match l.logFile with
  | none => (fs, none)
  | some h => fs.closeFile h

/-- `func (l *Logger) SetLevel(level LogLevel)`. -/
def Logger.SetLevel (l : Logger) (level : LogLevel) : Logger :=
  { l with level := level }

/-- `func (l *Logger) WithTimeFormat(layout string)`: ignores the empty
string. -/
def Logger.WithTimeFormat (l : Logger) (layout : String) : Logger :=
  if layout ≠ "" then { l with timeFormat := layout } else l

/-- `func (l *Logger) WithCaller(enable bool)`. -/
def Logger.WithCaller (l : Logger) (enable : Bool) : Logger :=
  { l with withCaller := enable }

/-- `func (l *Logger) WithJSON()`. -/
def Logger.WithJSON (l : Logger) : Logger :=
  { l with jsonMode := true }

/-- `func (l *Logger) DisableFile()`: closes and clears the handle when
one is stored; a no-op otherwise. -/
def Logger.DisableFile (l : Logger) (fs : FileSys) : Logger × FileSys :=
  match l.logFile with
  | none => (l, fs)
  | some h => ({ l with logFile := none }, (fs.closeFile h).1)

/-- `func (l *Logger) EnableFile(path string) error`: closes any stored
handle, then opens the new path; on open failure returns the error and
leaves the logger's fields unchanged (the stored handle, now closed, is
not cleared). -/
def Logger.EnableFile (l : Logger) (fs : FileSys) (openOk : String → Bool)
    (path : String) : Logger × FileSys × Option String :=
  let fs1 :=
    match l.logFile with
    | some h => (fs.closeFile h).1
    | none => fs
  match fs1.openFile openOk path with
  | .error e => (l, fs1, some e)
  | .ok (fs2, h) => ({ l with logFile := some h }, fs2, none)

/-! ## Helper lemmas -/

/-- The bracket-free level name, for stating the file-format claims. -/
def levelName (level : LogLevel) : String :=
  if level = DEBUG then "DEBUG"
  else if level = INFO then "INFO"
  else if level = WARNING then "WARNING"
  else if level = ERROR then "ERROR"
  else if level = FATAL then "FATAL"
  else ""

/-- Whether the logger currently has a usable file sink: a stored handle
that is actually open. -/
def sinkOpen (l : Logger) (fs : FileSys) : Bool :=
  match l.logFile with
  | some h => fs.isOpen h
  | none => false

theorem closeFile_opens_forall (fs : FileSys) (h : Nat) :
    ∀ p ∈ ((fs.closeFile h).1).opens, p.1 ≠ h := by
  unfold FileSys.closeFile
  by_cases hc : fs.opens.any (fun p => p.1 = h) = true
  · rw [if_pos hc]
    intro p hp
    simpa using (List.mem_filter.mp hp).2
  · rw [if_neg hc]
    intro p hp heq
    exact hc (List.any_eq_true.mpr ⟨p, hp, by simpa using heq⟩)

theorem closeFile_isOpen_self (fs : FileSys) (h : Nat) :
    ((fs.closeFile h).1).isOpen h = false := by
  unfold FileSys.isOpen
  rw [List.any_eq_false]
  intro p hp
  simpa using closeFile_opens_forall fs h p hp

theorem closeFile_find_none (fs : FileSys) (h : Nat) :
    ((fs.closeFile h).1).opens.find? (fun p => p.1 = h) = none := by
  rw [List.find?_eq_none]
  intro p hp
  simpa using closeFile_opens_forall fs h p hp

theorem closeFile_pathOf_self (fs : FileSys) (h : Nat) :
    ((fs.closeFile h).1).pathOf h = none := by
  unfold FileSys.pathOf
  rw [closeFile_find_none fs h]
  rfl

theorem any_eq_find_isSome (l : List (Nat × String)) (h : Nat) :
    (l.any fun p => p.1 = h) = (l.find? fun p => p.1 = h).isSome := by
  induction l with
  | nil => rfl
  | cons p rest ih =>
    by_cases hp : p.1 = h <;> simp [List.find?_cons, List.any_cons, hp, ih]

theorem isOpen_eq_pathOf_isSome (fs : FileSys) (h : Nat) :
    fs.isOpen h = (fs.pathOf h).isSome := by
  unfold FileSys.isOpen FileSys.pathOf
  rw [any_eq_find_isSome]
  cases fs.opens.find? (fun p => p.1 = h) <;> rfl

theorem closeFile_opens_nil (fs : FileSys) (h : Nat)
    (hall : ∀ p ∈ fs.opens, p.1 = h) : ((fs.closeFile h).1).opens = [] := by
  unfold FileSys.closeFile
  by_cases hc : fs.opens.any (fun p => p.1 = h) = true
  · rw [if_pos hc]
    show fs.opens.filter (fun p => p.1 ≠ h) = []
    rw [List.filter_eq_nil_iff]
    intro p hp
    simpa using hall p hp
  · rw [if_neg hc]
    show fs.opens = []
    by_contra hne
    obtain ⟨p, hp⟩ := List.exists_mem_of_ne_nil fs.opens hne
    exact hc (List.any_eq_true.mpr ⟨p, hp, by simpa using hall p hp⟩)

theorem closeFile_open_ok (fs : FileSys) (h : Nat) (hc : fs.isOpen h = true) :
    (fs.closeFile h).2 = none := by
  unfold FileSys.closeFile
  unfold FileSys.isOpen at hc
  rw [if_pos hc]

theorem closeFile_closed_err (fs : FileSys) (h : Nat) (hc : fs.isOpen h = false) :
    fs.closeFile h = (fs, some "file already closed") := by
  unfold FileSys.closeFile
  unfold FileSys.isOpen at hc
  rw [if_neg (by simp [hc])]

/-! ## Claims -/

/-- C1: for every severity strictly below the logger's current threshold,
the corresponding leveled method returns immediately with no side effects:
no message formatting is performed, and zero console output and zero file
output are produced (the file system is returned unchanged). -/
theorem claim1_gate_short_circuit (l : Logger) (fs : FileSys)
    (sprintf : String → List String → String) (msg : String) (v : List String)
    (nowStr : String) (callerRes : Option (String × Nat)) :
    (DEBUG < l.level → l.Debug fs sprintf msg v nowStr callerRes = ⟨fs, [], false⟩) ∧
    (INFO < l.level → l.Info fs sprintf msg v nowStr callerRes = ⟨fs, [], false⟩) ∧
    (WARNING < l.level → l.Warning fs sprintf msg v nowStr callerRes = ⟨fs, [], false⟩) ∧
    (ERROR < l.level → l.Error fs sprintf msg v nowStr callerRes = ⟨fs, [], false⟩) ∧
    (FATAL < l.level → l.Fatal fs sprintf msg v nowStr callerRes = ⟨fs, [], false, false⟩) := by
  refine ⟨?_, ?_, ?_, ?_, ?_⟩ <;> intro h <;>
    simp [Logger.Debug, Logger.Info, Logger.Warning, Logger.Error, Logger.Fatal, h]

/-- Witness for C1: a logger with threshold `5` suppresses `Debug` and
`Fatal` with no side effects. -/
theorem claim1_gate_short_circuit_witness :
    Logger.Debug ⟨5, none, 0, "", "t", false, false⟩ ⟨0, [], []⟩
        (fun t _ => t) "m" [] "now" none = ⟨⟨0, [], []⟩, [], false⟩ ∧
    Logger.Fatal ⟨5, none, 0, "", "t", false, false⟩ ⟨0, [], []⟩
        (fun t _ => t) "m" [] "now" none = ⟨⟨0, [], []⟩, [], false, false⟩ :=
  ⟨(claim1_gate_short_circuit _ _ _ _ _ _ _).1 (by decide),
   (claim1_gate_short_circuit _ _ _ _ _ _ _).2.2.2.2 (by decide)⟩

/-- C9: since `LogLevel` is an unconstrained integer and `SetLevel` accepts
any value, a threshold strictly above `FATAL` makes `Fatal` return
immediately: no console output, no file output, and `os.Exit` is never
reached. -/
theorem claim9_fatal_suppressed (l : Logger) (fs : FileSys)
    (sprintf : String → List String → String) (msg : String) (v : List String)
    (nowStr : String) (callerRes : Option (String × Nat)) (lv : LogLevel)
    (h : FATAL < lv) :
    (l.SetLevel lv).Fatal fs sprintf msg v nowStr callerRes = ⟨fs, [], false, false⟩ := by
  simp [Logger.SetLevel, Logger.Fatal, h]

/-- Witness for C9: threshold `5 > FATAL` suppresses `Fatal`, including the
process exit. -/
theorem claim9_fatal_suppressed_witness :
    (Logger.SetLevel ⟨0, none, 0, "", "t", false, false⟩ 5).Fatal ⟨0, [], []⟩
        (fun t _ => t) "bye" [] "now" none = ⟨⟨0, [], []⟩, [], false, false⟩ :=
  claim9_fatal_suppressed _ _ _ _ _ _ _ 5 (by decide)

/-- C10: each runtime mutator `SetLevel` / `WithTimeFormat` / `WithCaller` /
`WithJSON` modifies only its own configuration field and leaves the file
sink, console destination, and every other field unchanged; in particular
`WithTimeFormat ""` leaves the time format (indeed the whole logger)
unchanged. -/
theorem claim10_mutator_frame (l : Logger) (lv : LogLevel) (layout : String)
    (enable : Bool) :
    ((l.SetLevel lv).level = lv ∧ (l.SetLevel lv).logFile = l.logFile ∧
     (l.SetLevel lv).out = l.out ∧ (l.SetLevel lv).filePath = l.filePath ∧
     (l.SetLevel lv).timeFormat = l.timeFormat ∧
     (l.SetLevel lv).withCaller = l.withCaller ∧
     (l.SetLevel lv).jsonMode = l.jsonMode) ∧
    ((l.WithTimeFormat layout).timeFormat
        = (if layout = "" then l.timeFormat else layout) ∧
     (l.WithTimeFormat layout).level = l.level ∧
     (l.WithTimeFormat layout).logFile = l.logFile ∧
     (l.WithTimeFormat layout).out = l.out ∧
     (l.WithTimeFormat layout).filePath = l.filePath ∧
     (l.WithTimeFormat layout).withCaller = l.withCaller ∧
     (l.WithTimeFormat layout).jsonMode = l.jsonMode ∧
     l.WithTimeFormat "" = l) ∧
    ((l.WithCaller enable).withCaller = enable ∧
     (l.WithCaller enable).level = l.level ∧
     (l.WithCaller enable).logFile = l.logFile ∧
     (l.WithCaller enable).out = l.out ∧
     (l.WithCaller enable).filePath = l.filePath ∧
     (l.WithCaller enable).timeFormat = l.timeFormat ∧
     (l.WithCaller enable).jsonMode = l.jsonMode) ∧
    (l.WithJSON.jsonMode = true ∧
     l.WithJSON.level = l.level ∧ l.WithJSON.logFile = l.logFile ∧
     l.WithJSON.out = l.out ∧ l.WithJSON.filePath = l.filePath ∧
     l.WithJSON.timeFormat = l.timeFormat ∧
     l.WithJSON.withCaller = l.withCaller) := by
  unfold Logger.SetLevel Logger.WithTimeFormat Logger.WithCaller Logger.WithJSON
  by_cases hl : layout = "" <;> simp [hl]

/-- C2 as stated is false: `Close` does not clear the stored handle, so a
second `Close` re-closes the already-closed file and returns the
double-close error rather than `nil`. -/
theorem claim2_counterexample :
    ((Logger.Close ⟨0, some 0, 0, "a.log", "t", false, false⟩
        ⟨1, [(0, "a.log")], []⟩).2 = none) ∧
    ((Logger.Close ⟨0, some 0, 0, "a.log", "t", false, false⟩
        (Logger.Close ⟨0, some 0, 0, "a.log", "t", false, false⟩
          ⟨1, [(0, "a.log")], []⟩).1).2 = some "file already closed") := by
  decide

/-- C2 amended: calling `Close()` when no file sink was ever configured
returns `nil`; when a handle is stored, `Close()` returns the underlying
close error, if any, to the caller — in particular a first `Close()` of an
open handle succeeds, but since the handle field is not cleared, a second
`Close()` re-closes it and surfaces the double-close error. -/
theorem claim2_close_amended (l : Logger) (fs : FileSys) :
    (l.logFile = none → l.Close fs = (fs, none)) ∧
    (∀ h, l.logFile = some h → l.Close fs = fs.closeFile h) ∧
    (∀ h, l.logFile = some h → fs.isOpen h = true →
      (l.Close fs).2 = none ∧
      (l.Close (l.Close fs).1).2 = some "file already closed") := by
  refine ⟨?_, ?_, ?_⟩
  · intro hnone
    unfold Logger.Close
    rw [hnone]
  · intro h hsome
    unfold Logger.Close
    rw [hsome]
  · intro h hsome hopen
    have hC : ∀ fs2 : FileSys, l.Close fs2 = fs2.closeFile h := by
      intro fs2
      unfold Logger.Close
      rw [hsome]
    rw [hC, hC]
    refine ⟨closeFile_open_ok fs h hopen, ?_⟩
    rw [closeFile_closed_err ((fs.closeFile h).1) h (closeFile_isOpen_self fs h)]

/-- Witness for C2's amended theorem: a sink-free logger closes with `nil`,
and with an open handle the first close succeeds while the second errors. -/
theorem claim2_close_amended_witness :
    Logger.Close ⟨0, none, 0, "", "t", false, false⟩ ⟨0, [], []⟩
      = (⟨0, [], []⟩, none) ∧
    (Logger.Close ⟨0, some 0, 0, "a", "t", false, false⟩
        ⟨1, [(0, "a")], []⟩).2 = none :=
  ⟨(claim2_close_amended ⟨0, none, 0, "", "t", false, false⟩ ⟨0, [], []⟩).1 rfl,
   ((claim2_close_amended ⟨0, some 0, 0, "a", "t", false, false⟩
      ⟨1, [(0, "a")], []⟩).2.2 0 rfl (by decide)).1⟩

theorem writeRecord_closed (fs : FileSys) (h : Nat) (r : FileRecord)
    (hc : fs.pathOf h = none) : fs.writeRecord h r = fs := by
  unfold FileSys.writeRecord
  rw [hc]

theorem log_stale_written (l : Logger) (fs : FileSys) (level : LogLevel)
    (msg nowStr : String) (callerRes : Option (String × Nat))
    (hst : ∀ h, l.logFile = some h → fs.pathOf h = none) :
    ((l.log fs level msg nowStr callerRes).1).written = fs.written := by
  unfold Logger.log
  by_cases hg : level < l.level
  · rw [if_pos hg]
  · rw [if_neg hg]
    cases hl : l.logFile with
    | none => rfl
    | some h =>
      have hpath := hst h hl
      by_cases hj : l.jsonMode = true
      · simp [hj, writeRecord_closed _ _ _ hpath]
      · simp [hj, writeRecord_closed _ _ _ hpath]

/-- C3 as stated is false in its "no file sink" part: when a sink was open
and the new path cannot be opened, `EnableFile` leaves the old (now closed)
handle stored in the logger rather than clearing the field. -/
theorem claim3_counterexample :
    ((Logger.EnableFile ⟨0, some 0, 0, "a", "t", false, false⟩ ⟨1, [(0, "a")], []⟩
        (fun _ => false) "b").2.2.isSome = true) ∧
    ((Logger.EnableFile ⟨0, some 0, 0, "a", "t", false, false⟩ ⟨1, [(0, "a")], []⟩
        (fun _ => false) "b").1.logFile ≠ none) := by
  decide

/-- C3 amended: `EnableFile` closes any currently open handle before trying
to open the new path and returns an error if the open fails; in that
failure case the logger's fields are left exactly as they were (so a
previously stored handle remains stored, though closed, and the instance
ends with no file sink only when none was stored before), and every
subsequent log call produces no file emission, because the write through
the closed stale handle fails and is swallowed. -/
theorem claim3_enable_fail_amended (l : Logger) (fs : FileSys)
    (openOk : String → Bool) (path : String) (hfail : openOk path = false) :
    (∀ h, l.logFile = some h →
      (((l.EnableFile fs openOk path).2.1).isOpen h) = false) ∧
    ((l.EnableFile fs openOk path).2.2.isSome = true) ∧
    ((l.EnableFile fs openOk path).1 = l) ∧
    (∀ level msg nowStr callerRes,
      ((((l.EnableFile fs openOk path).1).log ((l.EnableFile fs openOk path).2.1)
          level msg nowStr callerRes).1).written
        = ((l.EnableFile fs openOk path).2.1).written) := by
  have hEn : l.EnableFile fs openOk path
      = (l, (match l.logFile with
             | some h => (fs.closeFile h).1
             | none => fs), some ("open " ++ path ++ ": failed")) := by
    cases hl : l.logFile <;>
      simp [Logger.EnableFile, FileSys.openFile, hfail, hl]
  refine ⟨?_, ?_, ?_, ?_⟩
  · intro h hsome
    rw [hEn, hsome]
    exact closeFile_isOpen_self fs h
  · rw [hEn]
    rfl
  · rw [hEn]
  · intro level msg nowStr callerRes
    rw [hEn]
    apply log_stale_written
    intro h hsome
    rw [hsome]
    exact closeFile_pathOf_self fs h

/-- Witness for C3's amended theorem: with an open sink on handle `0` and
an open failure on the new path, the logger is unchanged (stale handle
still stored) and handle `0` is closed. -/
theorem claim3_enable_fail_amended_witness :
    (Logger.EnableFile ⟨0, some 0, 0, "a", "t", false, false⟩ ⟨1, [(0, "a")], []⟩
        (fun _ => false) "b").1 = ⟨0, some 0, 0, "a", "t", false, false⟩ ∧
    ((Logger.EnableFile ⟨0, some 0, 0, "a", "t", false, false⟩ ⟨1, [(0, "a")], []⟩
        (fun _ => false) "b").2.1).isOpen 0 = false :=
  ⟨(claim3_enable_fail_amended ⟨0, some 0, 0, "a", "t", false, false⟩
      ⟨1, [(0, "a")], []⟩ (fun _ => false) "b" rfl).2.2.1,
   (claim3_enable_fail_amended ⟨0, some 0, 0, "a", "t", false, false⟩
      ⟨1, [(0, "a")], []⟩ (fun _ => false) "b" rfl).1 0 rfl⟩

theorem writeRecord_written_length (fs : FileSys) (h : Nat) (r : FileRecord) :
    (fs.writeRecord h r).written.length
      = fs.written.length + (if fs.isOpen h = true then 1 else 0) := by
  unfold FileSys.writeRecord
  rw [isOpen_eq_pathOf_isSome]
  cases hp : fs.pathOf h <;> simp

theorem log_console_eq (l : Logger) (fs : FileSys) (level : LogLevel)
    (msg nowStr : String) (callerRes : Option (String × Nat))
    (hg : ¬ level < l.level) :
    (l.log fs level msg nowStr callerRes).2 = consoleLines l.out level msg := by
  unfold Logger.log
  rw [if_neg hg]
  cases hl : l.logFile with
  | none => rfl
  | some h =>
    by_cases hj : l.jsonMode = true <;> simp [hj]

theorem log_written_length (l : Logger) (fs : FileSys) (level : LogLevel)
    (msg nowStr : String) (callerRes : Option (String × Nat))
    (hg : ¬ level < l.level) :
    ((l.log fs level msg nowStr callerRes).1).written.length
      = fs.written.length + (if sinkOpen l fs = true then 1 else 0) := by
  unfold Logger.log
  rw [if_neg hg]
  cases hl : l.logFile with
  | none =>
    unfold sinkOpen
    rw [hl]
    simp
  | some h =>
    have hsink : sinkOpen l fs = fs.isOpen h := by
      unfold sinkOpen
      rw [hl]
    rw [hsink]
    by_cases hj : l.jsonMode = true <;>
      simp [hj, writeRecord_written_length]

theorem log_pass_counts (l : Logger) (fs : FileSys) (level : LogLevel)
    (msg nowStr : String) (callerRes : Option (String × Nat))
    (hg : ¬ level < l.level)
    (hlv : level = DEBUG ∨ level = INFO ∨ level = WARNING ∨ level = ERROR ∨
      level = FATAL) :
    ((l.log fs level msg nowStr callerRes).2).length = 1 ∧
    ((l.log fs level msg nowStr callerRes).1).written.length
      = fs.written.length + (if sinkOpen l fs = true then 1 else 0) := by
  constructor
  · rw [log_console_eq l fs level msg nowStr callerRes hg]
    unfold consoleLines
    rw [if_pos hlv]
    rfl
  · exact log_written_length l fs level msg nowStr callerRes hg

/-- C4: for every severity at or above the current threshold, each call to
the corresponding leveled method produces exactly one console line, and
exactly one file record if and only if a file sink is open (an open stored
handle); with no open sink the file contents are unchanged. -/
theorem claim4_pass_counts (l : Logger) (fs : FileSys)
    (sprintf : String → List String → String) (msg : String) (v : List String)
    (nowStr : String) (callerRes : Option (String × Nat)) :
    (l.level ≤ DEBUG →
      (l.Debug fs sprintf msg v nowStr callerRes).console.length = 1 ∧
      (l.Debug fs sprintf msg v nowStr callerRes).fs.written.length
        = fs.written.length + (if sinkOpen l fs = true then 1 else 0)) ∧
    (l.level ≤ INFO →
      (l.Info fs sprintf msg v nowStr callerRes).console.length = 1 ∧
      (l.Info fs sprintf msg v nowStr callerRes).fs.written.length
        = fs.written.length + (if sinkOpen l fs = true then 1 else 0)) ∧
    (l.level ≤ WARNING →
      (l.Warning fs sprintf msg v nowStr callerRes).console.length = 1 ∧
      (l.Warning fs sprintf msg v nowStr callerRes).fs.written.length
        = fs.written.length + (if sinkOpen l fs = true then 1 else 0)) ∧
    (l.level ≤ ERROR →
      (l.Error fs sprintf msg v nowStr callerRes).console.length = 1 ∧
      (l.Error fs sprintf msg v nowStr callerRes).fs.written.length
        = fs.written.length + (if sinkOpen l fs = true then 1 else 0)) ∧
    (l.level ≤ FATAL →
      (l.Fatal fs sprintf msg v nowStr callerRes).console.length = 1 ∧
      (l.Fatal fs sprintf msg v nowStr callerRes).fs.written.length
        = fs.written.length + (if sinkOpen l fs = true then 1 else 0)) := by
  refine ⟨?_, ?_, ?_, ?_, ?_⟩ <;> intro h
  · have hg : ¬ l.level > DEBUG := not_lt.mpr h
    unfold Logger.Debug
    rw [if_neg hg]
    exact log_pass_counts l fs DEBUG _ nowStr callerRes (not_lt.mpr h)
      (Or.inl rfl)
  · have hg : ¬ l.level > INFO := not_lt.mpr h
    unfold Logger.Info
    rw [if_neg hg]
    exact log_pass_counts l fs INFO _ nowStr callerRes (not_lt.mpr h)
      (Or.inr (Or.inl rfl))
  · have hg : ¬ l.level > WARNING := not_lt.mpr h
    unfold Logger.Warning
    rw [if_neg hg]
    exact log_pass_counts l fs WARNING _ nowStr callerRes (not_lt.mpr h)
      (Or.inr (Or.inr (Or.inl rfl)))
  · have hg : ¬ l.level > ERROR := not_lt.mpr h
    unfold Logger.Error
    rw [if_neg hg]
    exact log_pass_counts l fs ERROR _ nowStr callerRes (not_lt.mpr h)
      (Or.inr (Or.inr (Or.inr (Or.inl rfl))))
  · have hg : ¬ l.level > FATAL := not_lt.mpr h
    unfold Logger.Fatal
    rw [if_neg hg]
    exact log_pass_counts l fs FATAL _ nowStr callerRes (not_lt.mpr h)
      (Or.inr (Or.inr (Or.inr (Or.inr rfl))))

/-- Witness for C4: at threshold `INFO`, an `Info` call with an open sink
emits one console line and one file record, and with no sink emits one
console line and no file record. -/
theorem claim4_pass_counts_witness :
    ((Logger.Info ⟨1, some 0, 7, "a", "t", false, false⟩ ⟨1, [(0, "a")], []⟩
        (fun t _ => t) "m" [] "now" none).console.length = 1 ∧
     (Logger.Info ⟨1, some 0, 7, "a", "t", false, false⟩ ⟨1, [(0, "a")], []⟩
        (fun t _ => t) "m" [] "now" none).fs.written.length = 0 + 1) ∧
    ((Logger.Info ⟨1, none, 7, "", "t", false, false⟩ ⟨0, [], []⟩
        (fun t _ => t) "m" [] "now" none).console.length = 1 ∧
     (Logger.Info ⟨1, none, 7, "", "t", false, false⟩ ⟨0, [], []⟩
        (fun t _ => t) "m" [] "now" none).fs.written.length = 0 + 0) := by
  constructor
  · have := (claim4_pass_counts ⟨1, some 0, 7, "a", "t", false, false⟩
      ⟨1, [(0, "a")], []⟩ (fun t _ => t) "m" [] "now" none).2.1 (by decide)
    simpa [sinkOpen, FileSys.isOpen] using this
  · have := (claim4_pass_counts ⟨1, none, 7, "", "t", false, false⟩
      ⟨0, [], []⟩ (fun t _ => t) "m" [] "now" none).2.1 (by decide)
    simpa [sinkOpen] using this

/-- C5: for every leveled method call, the message is produced by
printf-style interpolation of the variadic args into the template iff at
least one argument is supplied.  With zero arguments no interpolation is
attempted at all (the result does not depend on the formatter, so a
template with a literal percent sign is logged verbatim, with no
formatting error); with at least one argument the console line carries the
interpolated message. -/
theorem claim5_interpolation (l : Logger) (fs : FileSys)
    (sprintf sprintf2 : String → List String → String) (msg : String)
    (v : List String) (nowStr : String) (callerRes : Option (String × Nat)) :
    ((v = [] → l.Debug fs sprintf msg v nowStr callerRes
        = l.Debug fs sprintf2 msg v nowStr callerRes) ∧
     (l.level ≤ DEBUG → (l.Debug fs sprintf msg v nowStr callerRes).console
        = [(l.out, "[DEBUG] " ++ (if v.length > 0 then sprintf msg v else msg))])) ∧
    ((v = [] → l.Info fs sprintf msg v nowStr callerRes
        = l.Info fs sprintf2 msg v nowStr callerRes) ∧
     (l.level ≤ INFO → (l.Info fs sprintf msg v nowStr callerRes).console
        = [(l.out, "[INFO] " ++ (if v.length > 0 then sprintf msg v else msg))])) ∧
    ((v = [] → l.Warning fs sprintf msg v nowStr callerRes
        = l.Warning fs sprintf2 msg v nowStr callerRes) ∧
     (l.level ≤ WARNING → (l.Warning fs sprintf msg v nowStr callerRes).console
        = [(l.out, "[WARNING] " ++ (if v.length > 0 then sprintf msg v else msg))])) ∧
    ((v = [] → l.Error fs sprintf msg v nowStr callerRes
        = l.Error fs sprintf2 msg v nowStr callerRes) ∧
     (l.level ≤ ERROR → (l.Error fs sprintf msg v nowStr callerRes).console
        = [(l.out, "[ERROR] " ++ (if v.length > 0 then sprintf msg v else msg))])) ∧
    ((v = [] → l.Fatal fs sprintf msg v nowStr callerRes
        = l.Fatal fs sprintf2 msg v nowStr callerRes) ∧
     (l.level ≤ FATAL → (l.Fatal fs sprintf msg v nowStr callerRes).console
        = [(l.out, "[FATAL] " ++ (if v.length > 0 then sprintf msg v else msg))])) := by
  refine ⟨⟨?_, ?_⟩, ⟨?_, ?_⟩, ⟨?_, ?_⟩, ⟨?_, ?_⟩, ⟨?_, ?_⟩⟩
  · intro hv
    subst hv
    rfl
  · intro hle
    unfold Logger.Debug
    rw [if_neg (not_lt.mpr hle)]
    show (l.log fs DEBUG _ nowStr callerRes).2 = _
    rw [log_console_eq _ _ _ _ _ _ (not_lt.mpr hle)]
    rfl
  · intro hv
    subst hv
    rfl
  · intro hle
    unfold Logger.Info
    rw [if_neg (not_lt.mpr hle)]
    show (l.log fs INFO _ nowStr callerRes).2 = _
    rw [log_console_eq _ _ _ _ _ _ (not_lt.mpr hle)]
    rfl
  · intro hv
    subst hv
    rfl
  · intro hle
    unfold Logger.Warning
    rw [if_neg (not_lt.mpr hle)]
    show (l.log fs WARNING _ nowStr callerRes).2 = _
    rw [log_console_eq _ _ _ _ _ _ (not_lt.mpr hle)]
    rfl
  · intro hv
    subst hv
    rfl
  · intro hle
    unfold Logger.Error
    rw [if_neg (not_lt.mpr hle)]
    show (l.log fs ERROR _ nowStr callerRes).2 = _
    rw [log_console_eq _ _ _ _ _ _ (not_lt.mpr hle)]
    rfl
  · intro hv
    subst hv
    rfl
  · intro hle
    unfold Logger.Fatal
    rw [if_neg (not_lt.mpr hle)]
    show (l.log fs FATAL _ nowStr callerRes).2 = _
    rw [log_console_eq _ _ _ _ _ _ (not_lt.mpr hle)]
    rfl

/-- Witness for C5: with zero args the template `"100% done"` is logged
verbatim whatever the formatter does, and with one arg the console line
carries the interpolated message. -/
theorem claim5_interpolation_witness :
    (Logger.Info ⟨0, none, 0, "", "t", false, false⟩ ⟨0, [], []⟩
        (fun t args => t ++ String.join args) "100% done" [] "now" none
      = Logger.Info ⟨0, none, 0, "", "t", false, false⟩ ⟨0, [], []⟩
        (fun _ _ => "BAD") "100% done" [] "now" none) ∧
    ((Logger.Info ⟨0, none, 0, "", "t", false, false⟩ ⟨0, [], []⟩
        (fun t args => t ++ String.join args) "started %s" ["svc"] "now" none).console
      = [(0, "[INFO] " ++ (if (["svc"] : List String).length > 0
            then (fun t args => t ++ String.join args) "started %s" ["svc"]
            else "started %s"))]) :=
  ⟨(claim5_interpolation ⟨0, none, 0, "", "t", false, false⟩ ⟨0, [], []⟩
      (fun t args => t ++ String.join args) (fun _ _ => "BAD")
      "100% done" [] "now" none).2.1.1 rfl,
   (claim5_interpolation ⟨0, none, 0, "", "t", false, false⟩ ⟨0, [], []⟩
      (fun t args => t ++ String.join args) (fun _ _ => "BAD")
      "started %s" ["svc"] "now" none).2.1.2 (by decide)⟩

theorem levelTag_eq (level : LogLevel)
    (hlv : level = DEBUG ∨ level = INFO ∨ level = WARNING ∨ level = ERROR ∨
      level = FATAL) :
    levelTag level = "[" ++ levelName level ++ "] " := by
  rcases hlv with h | h | h | h | h <;> subst h <;> rfl

theorem stripTag_levelTag (level : LogLevel)
    (hlv : level = DEBUG ∨ level = INFO ∨ level = WARNING ∨ level = ERROR ∨
      level = FATAL) :
    stripTag (levelTag level) = levelName level := by
  rcases hlv with h | h | h | h | h <;> subst h <;> decide

/-- C7: in structured mode, every file record written by a passing log call
is one self-describing record whose fields are exactly `time`, `level`
(the uppercase literal level name without brackets), `msg`, and `caller`
present if and only if the resolved caller string is non-empty, encoded
with HTML-style escaping disabled. -/
theorem claim7_json_record (l : Logger) (fs : FileSys) (level : LogLevel)
    (msg nowStr : String) (callerRes : Option (String × Nat)) (h : Nat)
    (path : String) (hjson : l.jsonMode = true) (hfile : l.logFile = some h)
    (hpath : fs.pathOf h = some path)
    (hlv : level = DEBUG ∨ level = INFO ∨ level = WARNING ∨ level = ERROR ∨
      level = FATAL)
    (hle : ¬ level < l.level) :
    ((l.log fs level msg nowStr callerRes).1.written
      = fs.written ++ [(path, FileRecord.json
          ([("time", nowStr), ("level", levelName level), ("msg", msg)]
            ++ (if resolveCaller l.withCaller callerRes ≠ "" then
                  [("caller", resolveCaller l.withCaller callerRes)] else []))
          false)]) ∧
    (([("time", nowStr), ("level", levelName level), ("msg", msg)]
        ++ (if resolveCaller l.withCaller callerRes ≠ "" then
              [("caller", resolveCaller l.withCaller callerRes)] else [])).map
        Prod.fst
      = ["time", "level", "msg"]
        ++ (if resolveCaller l.withCaller callerRes ≠ "" then ["caller"]
            else [])) := by
  constructor
  · simp only [Logger.log, if_neg hle, hfile, hjson, if_true,
      FileSys.writeRecord, hpath, stripTag_levelTag level hlv]
  · by_cases hc : resolveCaller l.withCaller callerRes ≠ "" <;> simp [hc]

/-- Witness for C7: a structured-mode `INFO` write with an open sink and no
caller info produces exactly the `time`/`level`/`msg` record. -/
theorem claim7_json_record_witness :
    (Logger.log ⟨0, some 0, 0, "a", "t", false, true⟩ ⟨1, [(0, "a")], []⟩
        INFO "m" "now" none).1.written
      = [] ++ [("a", FileRecord.json
          ([("time", "now"), ("level", levelName INFO), ("msg", "m")]
            ++ (if resolveCaller false none ≠ "" then
                  [("caller", resolveCaller false none)] else []))
          false)] :=
  (claim7_json_record ⟨0, some 0, 0, "a", "t", false, true⟩ ⟨1, [(0, "a")], []⟩
    INFO "m" "now" none 0 "a" rfl rfl (by decide)
    (Or.inr (Or.inl rfl)) (by decide)).1

/-- C8: in plain (non-structured) mode, every file line written by a
passing log call has the form `<formatted-time> [<LEVEL>] <message>`, with
a ` (<file>:<line>)` caller suffix appended exactly when the resolved
caller string is non-empty, is newline-terminated, and is appended to the
file. -/
theorem claim8_plain_line (l : Logger) (fs : FileSys) (level : LogLevel)
    (msg nowStr : String) (callerRes : Option (String × Nat)) (h : Nat)
    (path : String) (hplain : l.jsonMode = false) (hfile : l.logFile = some h)
    (hpath : fs.pathOf h = some path)
    (hlv : level = DEBUG ∨ level = INFO ∨ level = WARNING ∨ level = ERROR ∨
      level = FATAL)
    (hle : ¬ level < l.level) :
    (l.log fs level msg nowStr callerRes).1.written
      = fs.written ++ [(path, FileRecord.plain
          (nowStr ++ " " ++ ("[" ++ levelName level ++ "] ") ++ msg
            ++ (if resolveCaller l.withCaller callerRes ≠ "" then
                  " (" ++ resolveCaller l.withCaller callerRes ++ ")" else "")
            ++ "\n"))] := by
  simp only [Logger.log, if_neg hle, hfile, hplain, FileSys.writeRecord, hpath,
    levelTag_eq level hlv]
  by_cases hc : resolveCaller l.withCaller callerRes ≠ "" <;>
    simp [hc, String.append_assoc]

/-- Witness for C8: a plain-mode `INFO` write with an open sink and caller
capture on produces the single expected line with the caller suffix. -/
theorem claim8_plain_line_witness :
    (Logger.log ⟨0, some 0, 0, "a", "t", true, false⟩ ⟨1, [(0, "a")], []⟩
        INFO "m" "now" (some ("main.go", 42))).1.written
      = [] ++ [("a", FileRecord.plain
          ("now" ++ " " ++ ("[" ++ levelName INFO ++ "] ") ++ "m"
            ++ (if resolveCaller true (some ("main.go", 42)) ≠ "" then
                  " (" ++ resolveCaller true (some ("main.go", 42)) ++ ")"
                else "")
            ++ "\n"))] :=
  claim8_plain_line ⟨0, some 0, 0, "a", "t", true, false⟩ ⟨1, [(0, "a")], []⟩
    INFO "m" "now" (some ("main.go", 42)) 0 "a" rfl rfl (by decide)
    (Or.inr (Or.inl rfl)) (by decide)

/-- The operations that touch the file-sink state, per the spec's sink
state machine: `EnableFile` (with the OS open outcome given by `ok`),
`DisableFile`, and `Close`. -/
inductive SinkOp where
  | enable (path : String) (ok : Bool)
  | disable
  | close
  deriving Repr, DecidableEq

/-- One sink operation applied to a logger and file system. -/
def runSinkOp (l : Logger) (fs : FileSys) : SinkOp → Logger × FileSys
  | .enable path ok =>
    let r := l.EnableFile fs (fun _ => ok) path
    (r.1, r.2.1)
  | .disable => l.DisableFile fs
  | .close => (l, (l.Close fs).1)

/-- A sequence of sink operations. -/
def runSinkOps (l : Logger) (fs : FileSys) : List SinkOp → Logger × FileSys
  | [] => (l, fs)
  | op :: ops =>
    let r := runSinkOp l fs op
    runSinkOps r.1 r.2 ops

/-- The single-handle ownership invariant: at most one handle is open, and
any open handle is the one currently stored by the logger. -/
def SinkInv (l : Logger) (fs : FileSys) : Prop :=
  fs.opens.length ≤ 1 ∧ ∀ p ∈ fs.opens, l.logFile = some p.1

instance (l : Logger) (fs : FileSys) : Decidable (SinkInv l fs) := by
  unfold SinkInv
  infer_instance

theorem closeFile_nextId (fs : FileSys) (h : Nat) :
    ((fs.closeFile h).1).nextId = fs.nextId := by
  unfold FileSys.closeFile
  by_cases hc : fs.opens.any (fun p => p.1 = h) = true
  · rw [if_pos hc]
  · rw [if_neg hc]

theorem writeRecord_opens (fs : FileSys) (h : Nat) (r : FileRecord) :
    (fs.writeRecord h r).opens = fs.opens := by
  unfold FileSys.writeRecord
  cases hp : fs.pathOf h <;> rfl

theorem sinkInv_opens_nil (l : Logger) (fs : FileSys) (hinv : SinkInv l fs) :
    (match l.logFile with
     | some h => (fs.closeFile h).1
     | none => fs).opens = [] := by
  obtain ⟨hlen, hown⟩ := hinv
  cases hl : l.logFile with
  | none =>
    show fs.opens = []
    by_contra hne
    obtain ⟨p, hp⟩ := List.exists_mem_of_ne_nil fs.opens hne
    have h2 := hown p hp
    rw [hl] at h2
    exact Option.noConfusion h2
  | some h =>
    show ((fs.closeFile h).1).opens = []
    apply closeFile_opens_nil fs h
    intro p hp
    have h2 := hown p hp
    rw [hl] at h2
    exact (Option.some_inj.mp h2).symm

theorem enableFile_inv (l : Logger) (fs : FileSys) (openOk : String → Bool)
    (path : String) (hinv : SinkInv l fs) :
    SinkInv (l.EnableFile fs openOk path).1 ((l.EnableFile fs openOk path).2.1) := by
  have h1 := sinkInv_opens_nil l fs hinv
  unfold Logger.EnableFile FileSys.openFile
  by_cases ho : openOk path = true
  · simp only [ho, if_true]
    refine ⟨?_, ?_⟩
    · rw [h1]
      simp
    · intro p hp
      rw [h1] at hp
      simp only [List.nil_append, List.mem_singleton] at hp
      subst hp
      rfl
  · simp only [ho, Bool.false_eq_true, if_false]
    refine ⟨?_, ?_⟩
    · rw [h1]
      simp
    · intro p hp
      rw [h1] at hp
      exact absurd hp (List.not_mem_nil p)

theorem runSinkOp_inv (l : Logger) (fs : FileSys) (op : SinkOp)
    (hinv : SinkInv l fs) :
    SinkInv (runSinkOp l fs op).1 (runSinkOp l fs op).2 := by
  cases op with
  | enable path ok => exact enableFile_inv l fs (fun _ => ok) path hinv
  | disable =>
    unfold runSinkOp Logger.DisableFile
    cases hl : l.logFile with
    | none => exact hinv
    | some h =>
      have h1 := sinkInv_opens_nil l fs hinv
      rw [hl] at h1
      refine ⟨?_, ?_⟩
      · rw [h1]
        simp
      · intro p hp
        rw [h1] at hp
        exact absurd hp (List.not_mem_nil p)
  | close =>
    unfold runSinkOp Logger.Close
    cases hl : l.logFile with
    | none => exact hinv
    | some h =>
      have h1 := sinkInv_opens_nil l fs hinv
      rw [hl] at h1
      refine ⟨?_, ?_⟩
      · rw [h1]
        simp
      · intro p hp
        rw [h1] at hp
        exact absurd hp (List.not_mem_nil p)

theorem runSinkOps_inv (ops : List SinkOp) (l : Logger) (fs : FileSys)
    (hinv : SinkInv l fs) :
    SinkInv (runSinkOps l fs ops).1 (runSinkOps l fs ops).2 := by
  induction ops generalizing l fs with
  | nil => exact hinv
  | cons op ops ih => exact ih _ _ (runSinkOp_inv l fs op hinv)

theorem closeFile_empty (fs : FileSys) (h : Nat) (hemp : fs.opens = []) :
    fs.closeFile h = (fs, some "file already closed") := by
  apply closeFile_closed_err
  unfold FileSys.isOpen
  rw [hemp]
  rfl

theorem enableFile_from_empty (l : Logger) (fs : FileSys) (path : String)
    (hemp : fs.opens = []) :
    l.EnableFile fs (fun _ => true) path
      = ({ l with logFile := some fs.nextId },
         { fs with nextId := fs.nextId + 1, opens := [(fs.nextId, path)] },
         none) := by
  unfold Logger.EnableFile FileSys.openFile
  cases hl : l.logFile with
  | none => simp [hemp]
  | some h => simp [closeFile_empty fs h hemp, hemp]

theorem enableFile_from_single (l : Logger) (fs : FileSys) (h : Nat)
    (pA path : String) (hl : l.logFile = some h) (hops : fs.opens = [(h, pA)]) :
    l.EnableFile fs (fun _ => true) path
      = ({ l with logFile := some fs.nextId },
         { fs with nextId := fs.nextId + 1, opens := [(fs.nextId, path)] },
         none) := by
  have hclose : (fs.closeFile h).1 = { fs with opens := [] } := by
    unfold FileSys.closeFile
    rw [hops]
    simp
  unfold Logger.EnableFile FileSys.openFile
  rw [hl]
  simp [hclose]

theorem enableFile_ok_eq (l : Logger) (fs : FileSys) (openOk : String → Bool)
    (path : String) (h : Nat) (hl : l.logFile = some h) (ho : openOk path = true) :
    l.EnableFile fs openOk path
      = ({ l with logFile := some ((fs.closeFile h).1).nextId },
         { (fs.closeFile h).1 with
             nextId := ((fs.closeFile h).1).nextId + 1,
             opens := ((fs.closeFile h).1).opens
               ++ [(((fs.closeFile h).1).nextId, path)] },
         none) := by
  unfold Logger.EnableFile FileSys.openFile
  rw [hl]
  simp [ho]

theorem enableFile_fail_snd (l : Logger) (fs : FileSys) (openOk : String → Bool)
    (path : String) (hfail : openOk path = false) :
    (l.EnableFile fs openOk path).2.1
      = (match l.logFile with
         | some h => (fs.closeFile h).1
         | none => fs) := by
  cases hl : l.logFile <;>
    simp [Logger.EnableFile, FileSys.openFile, hfail, hl]

theorem enableFile_closes_old (l : Logger) (fs : FileSys) (openOk : String → Bool)
    (path : String) (h : Nat) (hl : l.logFile = some h) (hlt : h < fs.nextId) :
    ((l.EnableFile fs openOk path).2.1).isOpen h = false := by
  have hcl := closeFile_isOpen_self fs h
  by_cases ho : openOk path = true
  · rw [enableFile_ok_eq l fs openOk path h hl ho]
    unfold FileSys.isOpen
    rw [List.any_append]
    unfold FileSys.isOpen at hcl
    rw [hcl]
    rw [closeFile_nextId fs h]
    simp [ne_of_gt hlt]
  · have hf : openOk path = false := by simpa using ho
    rw [enableFile_fail_snd l fs openOk path hf, hl]
    exact hcl

/-- C6: the logger owns at most one open file handle at any time, across
every sequence of sink operations (the `SinkInv` invariant is preserved by
`EnableFile`, `DisableFile` and `Close`); `EnableFile` while a sink is
open closes the old handle; `EnableFile(pathA)` then `EnableFile(pathB)`
from a sink-free state leaves exactly one open handle — `pathB`'s — with
`pathA`'s handle closed; `DisableFile` closes the handle and leaves none;
and log calls never change which handles are open. -/
theorem claim6_single_open_handle (l : Logger) (fs : FileSys)
    (openOk : String → Bool) (pathA pathB path : String) (ops : List SinkOp)
    (hinv : SinkInv l fs) :
    (SinkInv (runSinkOps l fs ops).1 (runSinkOps l fs ops).2) ∧
    (∀ h, l.logFile = some h → h < fs.nextId →
      ((l.EnableFile fs openOk path).2.1).isOpen h = false) ∧
    (fs.opens = [] →
      ((((l.EnableFile fs (fun _ => true) pathA).1).EnableFile
          ((l.EnableFile fs (fun _ => true) pathA).2.1)
          (fun _ => true) pathB).2.1).opens = [(fs.nextId + 1, pathB)] ∧
      ((((l.EnableFile fs (fun _ => true) pathA).1).EnableFile
          ((l.EnableFile fs (fun _ => true) pathA).2.1)
          (fun _ => true) pathB).1).logFile = some (fs.nextId + 1) ∧
      ((((l.EnableFile fs (fun _ => true) pathA).1).EnableFile
          ((l.EnableFile fs (fun _ => true) pathA).2.1)
          (fun _ => true) pathB).2.1).isOpen fs.nextId = false) ∧
    (∀ h, l.logFile = some h →
      (l.DisableFile fs).1.logFile = none ∧
      ((l.DisableFile fs).2).isOpen h = false) ∧
    (∀ (level : LogLevel) (msg nowStr : String)
        (callerRes : Option (String × Nat)),
      ((l.log fs level msg nowStr callerRes).1).opens = fs.opens) := by
  refine ⟨runSinkOps_inv ops l fs hinv, ?_, ?_, ?_, ?_⟩
  · intro h hl hlt
    exact enableFile_closes_old l fs openOk path h hl hlt
  · intro hemp
    rw [enableFile_from_empty l fs pathA hemp]
    rw [enableFile_from_single _ _ fs.nextId pathA pathB rfl rfl]
    refine ⟨rfl, rfl, ?_⟩
    unfold FileSys.isOpen
    simp
  · intro h hl
    unfold Logger.DisableFile
    rw [hl]
    exact ⟨rfl, closeFile_isOpen_self fs h⟩
  · intro level msg nowStr callerRes
    unfold Logger.log
    by_cases hg : level < l.level
    · rw [if_pos hg]
    · rw [if_neg hg]
      cases hl : l.logFile with
      | none => rfl
      | some h =>
        by_cases hj : l.jsonMode = true <;> simp [hj, writeRecord_opens]

/-- Witness for C6: starting from a sink-free logger, enabling `"a"` then
`"b"` then disabling preserves the single-handle invariant, and the
two-enable scenario leaves exactly `"b"`'s handle open. -/
theorem claim6_single_open_handle_witness :
    SinkInv (runSinkOps ⟨0, none, 0, "", "t", false, false⟩ ⟨0, [], []⟩
        [SinkOp.enable "a" true, SinkOp.enable "b" true, SinkOp.disable]).1
      (runSinkOps ⟨0, none, 0, "", "t", false, false⟩ ⟨0, [], []⟩
        [SinkOp.enable "a" true, SinkOp.enable "b" true, SinkOp.disable]).2 ∧
    ((((⟨0, none, 0, "", "t", false, false⟩ : Logger).EnableFile ⟨0, [], []⟩
        (fun _ => true) "a").1.EnableFile
        (((⟨0, none, 0, "", "t", false, false⟩ : Logger).EnableFile ⟨0, [], []⟩
          (fun _ => true) "a").2.1) (fun _ => true) "b").2.1).opens
      = [(0 + 1, "b")] :=
  ⟨(claim6_single_open_handle ⟨0, none, 0, "", "t", false, false⟩ ⟨0, [], []⟩
      (fun _ => true) "a" "b" "p" [SinkOp.enable "a" true, SinkOp.enable "b" true,
        SinkOp.disable] (by decide)).1,
   ((claim6_single_open_handle ⟨0, none, 0, "", "t", false, false⟩ ⟨0, [], []⟩
      (fun _ => true) "a" "b" "p" [] (by decide)).2.2.1 rfl).1⟩
